import Mathlib

/-!
Verification development for the receipt-extraction service (src/app.py).

The Python program is shallowly embedded: Python strings are modelled as
`List Char`, `json.loads` / `json.dumps` are modelled by an executable
recursive-descent parser / printer over a `Json` value type, Python
exceptions are modelled by the `PyErr` type (carrying the exception class
name used by the endpoint via `type(e).__name__`), and the usage-counter
file is modelled by an explicit file-system state `FS`.

Model boundaries (documented once here):
- whitespace is the ASCII whitespace relevant to the program's inputs;
- JSON floats are modelled as exact rationals (the IEEE-double rounding of
  the Python runtime is idealised away); `NaN`/`Infinity` literals and lone
  surrogate escapes, which CPython's `json` tolerates, are outside the
  modelled fragment;
- the textual message of a `json.JSONDecodeError` and the decimal rendering
  of floats are not modelled (no claim depends on them).
-/

set_option maxRecDepth 100000

namespace ReceiptApi

/-- The opening-brace character, written via its code point. -/
def obraceC : Char := Char.ofNat 123

/-- The closing-brace character, written via its code point. -/
def cbraceC : Char := Char.ofNat 125

/-- The double-quote character. -/
def quoteC : Char := Char.ofNat 34

/-- The backslash character. -/
def bslashC : Char := Char.ofNat 92

/-- The backtick character used by Markdown code fences. -/
def btickC : Char := Char.ofNat 96

/-- ASCII whitespace, as stripped by Python `str.strip` and matched by the
regex class `\s` on the program's (ASCII-whitespace) inputs. -/
def isPySpace (c : Char) : Bool :=
  c == ' ' || c == '\t' || c == '\n' || c == '\r' || c == Char.ofNat 11 || c == Char.ofNat 12

/-- Python `str.strip()`: drop leading and trailing whitespace. -/
def pyStrip (cs : List Char) : List Char :=
  ((cs.dropWhile isPySpace).reverse.dropWhile isPySpace).reverse

/-- Whitespace skipped by the JSON grammar (`json.loads`). -/
def isJsonWs (c : Char) : Bool :=
  c == ' ' || c == '\t' || c == '\n' || c == '\r'

/-- Skip JSON whitespace. -/
def jsws (cs : List Char) : List Char := cs.dropWhile isJsonWs

/-- Boolean test that a list starts with the given pattern. -/
def hasPre : List Char → List Char → Bool
  | [], _ => true
  | _ :: _, [] => false
  | p :: ps, c :: cs => p == c && hasPre ps cs

/-- Case-insensitive variant of `hasPre`; the pattern is given in lower case. -/
def hasPreCI : List Char → List Char → Bool
  | [], _ => true
  | _ :: _, [] => false
  | p :: ps, c :: cs => p == c.toLower && hasPreCI ps cs

/-- Python JSON values. -/
inductive Json where
  | null
  | bool (b : Bool)
  | int (z : Int)
  | float (q : Rat)
  | str (s : List Char)
  | arr (elems : List Json)
  | obj (pairs : List (List Char × Json))

/-- Python exceptions that the program can raise, tagged by class. -/
inductive PyErr where
  | jsonDecodeError
  | attributeError
  | typeError
  | valueError
  | runtimeError (msg : List Char)
deriving DecidableEq

/-- Python `type(e).__name__`, as used by the `/parse` endpoint's handler. -/
def PyErr.typeName : PyErr → List Char
  | .jsonDecodeError => ("JSONDecodeError").toList
  | .attributeError => ("AttributeError").toList
  | .typeError => ("TypeError").toList
  | .valueError => ("ValueError").toList
  | .runtimeError _ => ("RuntimeError").toList

/-- Python `str(e)`; only modelled for `RuntimeError`, whose message the
program constructs itself. -/
def PyErr.message : PyErr → List Char
  | .runtimeError m => m
  | _ => []

/-- First-match lookup in an association list of JSON object members.
Objects built by the parser have unique keys, so this is Python `dict`
lookup. -/
def dictGet? : List (List Char × Json) → List Char → Option Json
  | [], _ => none
  | (k', v) :: t, k => if k' = k then some v else dictGet? t k

/-- Python `dict` insertion: replace the value at an existing key in place,
otherwise append the new member. -/
def dictInsert : List (List Char × Json) → List Char → Json → List (List Char × Json)
  | [], k, v => [(k, v)]
  | (k', v') :: t, k, v => if k' = k then (k, v) :: t else (k', v') :: dictInsert t k v

/-- Numeric value of a list of decimal digits. -/
def digitsVal (ds : List Char) : Nat :=
  ds.foldl (fun a c => a * 10 + (c.toNat - 48)) 0

/-- Value of a hexadecimal digit, if any. -/
def hexVal (c : Char) : Option Nat :=
  if c.isDigit then some (c.toNat - 48)
  else if 'a' ≤ c && c ≤ 'f' then some (c.toNat - 87)
  else if 'A' ≤ c && c ≤ 'F' then some (c.toNat - 55)
  else none

/-- The character denoted by a JSON single-character escape, if any. -/
def escChar? (e : Char) : Option Char :=
  if e == quoteC then some quoteC
  else if e == bslashC then some bslashC
  else if e == '/' then some '/'
  else if e == 'b' then some (Char.ofNat 8)
  else if e == 'f' then some (Char.ofNat 12)
  else if e == 'n' then some '\n'
  else if e == 'r' then some '\r'
  else if e == 't' then some '\t'
  else none

/-- Parse the body of a JSON string (after the opening quote), returning the
decoded characters and the remaining input. -/
def parseStringBody : List Char → Option (List Char × List Char)
  | [] => none
  | c :: rest =>
    if c == quoteC then some ([], rest)
    else if c == bslashC then
      match rest with
      | [] => none
      | e :: r2 =>
        match escChar? e with
        | some ec => (parseStringBody r2).map (fun p => (ec :: p.1, p.2))
        | none =>
          if e == 'u' then
            match r2 with
            | h1 :: h2 :: h3 :: h4 :: r3 =>
              match hexVal h1, hexVal h2, hexVal h3, hexVal h4 with
              | some a, some b, some c3, some d =>
                let n := ((a * 16 + b) * 16 + c3) * 16 + d
                if n < 55296 || (57343 < n && n < 1114112) then
                  (parseStringBody r3).map (fun p => (Char.ofNat n :: p.1, p.2))
                else none
              | _, _, _, _ => none
            | _ => none
          else none
    else if c.toNat < 32 then none
    else (parseStringBody rest).map (fun p => (c :: p.1, p.2))

/-- Parse an optional exponent part: `some (none, cs)` when no exponent
follows, `some (some e, rest)` for a well-formed exponent, `none` for a
malformed one. -/
def parseExpOpt (cs : List Char) : Option (Option Int × List Char) :=
  match cs with
  | [] => some (none, [])
  | c :: r1 =>
    if c == 'e' || c == 'E' then
      let sr : Bool × List Char :=
        match r1 with
        | '+' :: t => (false, t)
        | '-' :: t => (true, t)
        | _ => (false, r1)
      let es := sr.2.takeWhile (fun ch => ch.isDigit)
      let r3 := sr.2.dropWhile (fun ch => ch.isDigit)
      if es.isEmpty then none
      else some (some (if sr.1 then -(Int.ofNat (digitsVal es)) else Int.ofNat (digitsVal es)), r3)
    else some (none, cs)

/-- Scale a rational by a power of ten. -/
def applyExp (q : Rat) (e : Int) : Rat :=
  if e < 0 then q / ((10 : Rat) ^ (-e).toNat) else q * ((10 : Rat) ^ e.toNat)

/-- Parse a JSON number (the leading character is a minus sign or digit). -/
def parseNumber (cs : List Char) : Option (Json × List Char) :=
  let nr : Bool × List Char :=
    match cs with
    | '-' :: t => (true, t)
    | _ => (false, cs)
  let ds := nr.2.takeWhile (fun c => c.isDigit)
  let r1 := nr.2.dropWhile (fun c => c.isDigit)
  match ds with
  | [] => none
  | d0 :: drest =>
    if d0 == '0' && !drest.isEmpty then none
    else
      match r1 with
      | '.' :: r2 =>
        let fs := r2.takeWhile (fun c => c.isDigit)
        let r3 := r2.dropWhile (fun c => c.isDigit)
        if fs.isEmpty then none
        else
          match parseExpOpt r3 with
          | none => none
          | some (eo, r4) =>
            let mant : Rat := (Int.ofNat (digitsVal (ds ++ fs)) : Rat) / ((10 : Rat) ^ fs.length)
            let q := applyExp mant (eo.getD 0)
            some (.float (if nr.1 then -q else q), r4)
      | _ =>
        match parseExpOpt r1 with
        | none => none
        | some (none, _) =>
          some (.int (if nr.1 then -(Int.ofNat (digitsVal ds)) else Int.ofNat (digitsVal ds)), r1)
        | some (some e, r4) =>
          let q := applyExp ((Int.ofNat (digitsVal ds) : Int) : Rat) e
          some (.float (if nr.1 then -q else q), r4)

/-- States of the recursive-descent JSON parser: parsing a value, the tail
of an array, or the tail of an object. -/
inductive PState where
  | val (cs : List Char)
  | arrLoop (acc : List Json) (cs : List Char)
  | objLoop (acc : List (List Char × Json)) (cs : List Char)

/-- The fueled JSON parser; fuel decreases on every recursive call, and
`pyLoads` supplies fuel ample for its input. -/
def parseP : Nat → PState → Option (Json × List Char)
  | 0, _ => none
  | fuel + 1, .val cs0 =>
    match jsws cs0 with
    | [] => none
    | c :: rest =>
      if c == obraceC then
        match jsws rest with
        | c2 :: r2 =>
          if c2 == cbraceC then some (.obj [], r2)
          else parseP fuel (.objLoop [] rest)
        | [] => none
      else if c == '[' then
        match jsws rest with
        | c2 :: r2 =>
          if c2 == ']' then some (.arr [], r2)
          else parseP fuel (.arrLoop [] rest)
        | [] => none
      else if c == quoteC then
        (parseStringBody rest).map (fun p => (.str p.1, p.2))
      else if c == 't' then
        match rest with
        | 'r' :: 'u' :: 'e' :: r2 => some (.bool true, r2)
        | _ => none
      else if c == 'f' then
        match rest with
        | 'a' :: 'l' :: 's' :: 'e' :: r2 => some (.bool false, r2)
        | _ => none
      else if c == 'n' then
        match rest with
        | 'u' :: 'l' :: 'l' :: r2 => some (.null, r2)
        | _ => none
      else parseNumber (c :: rest)
  | fuel + 1, .arrLoop acc cs =>
    match parseP fuel (.val cs) with
    | none => none
    | some (v, r) =>
      match jsws r with
      | ',' :: r2 => parseP fuel (.arrLoop (v :: acc) r2)
      | ']' :: r2 => some (.arr (v :: acc).reverse, r2)
      | _ => none
  | fuel + 1, .objLoop acc cs =>
    match jsws cs with
    | c :: rest =>
      if c == quoteC then
        match parseStringBody rest with
        | none => none
        | some (k, r) =>
          match jsws r with
          | ':' :: r2 =>
            match parseP fuel (.val r2) with
            | none => none
            | some (v, r3) =>
              match jsws r3 with
              | ',' :: r4 => parseP fuel (.objLoop (dictInsert acc k v) r4)
              | c4 :: r4 =>
                if c4 == cbraceC then some (.obj (dictInsert acc k v), r4)
                else none
              | [] => none
          | _ => none
      else none
    | [] => none

/-- Model of Python `json.loads`: parse one JSON value and require only
whitespace to remain. Returns `none` where `json.loads` raises
`json.JSONDecodeError`. -/
def pyLoads (s : List Char) : Option Json :=
  match parseP (2 * s.length + 4) (.val s) with
  | some (v, rest) => if jsws rest = [] then some v else none
  | none => none

/-- Decimal rendering of an integer, as Python `str(int)` produces it. -/
def pyIntRepr (z : Int) : List Char :=
  if z < 0 then '-' :: Nat.toDigits 10 (-z).toNat else Nat.toDigits 10 z.toNat

/-- Lower-case hexadecimal digit. -/
def hexDigitChar (n : Nat) : Char :=
  if n < 10 then Char.ofNat (48 + n) else Char.ofNat (87 + n)

/-- Escape one character as `json.dumps` does with `ensure_ascii=False`. -/
def jsonEscChar (c : Char) : List Char :=
  if c == quoteC then [bslashC, quoteC]
  else if c == bslashC then [bslashC, bslashC]
  else if c == '\n' then [bslashC, 'n']
  else if c == '\r' then [bslashC, 'r']
  else if c == '\t' then [bslashC, 't']
  else if c == Char.ofNat 8 then [bslashC, 'b']
  else if c == Char.ofNat 12 then [bslashC, 'f']
  else if c.toNat < 32 then
    [bslashC, 'u', '0', '0', hexDigitChar (c.toNat / 16), hexDigitChar (c.toNat % 16)]
  else [c]

/-- Serialize a string literal as `json.dumps` does (`ensure_ascii=False`). -/
def dumpString (s : List Char) : List Char :=
  quoteC :: s.foldr (fun c acc => jsonEscChar c ++ acc) [quoteC]

/-- Join rendered items with the separator `", "` used by `json.dumps`. -/
def joinComma : List (List Char) → List Char
  | [] => []
  | [s] => s
  | s :: rest => s ++ ',' :: ' ' :: joinComma rest

/-- Fueled model of `json.dumps(..., ensure_ascii=False)`. Floats are never
dumped by the program on any path a claim touches; their rendering is a
placeholder. -/
def dumps : Nat → Json → List Char
  | 0, _ => []
  | _, .null => ("null").toList
  | _, .bool true => ("true").toList
  | _, .bool false => ("false").toList
  | _, .int z => pyIntRepr z
  | _, .float q => pyIntRepr q.num ++ '/' :: Nat.toDigits 10 q.den
  | _ + 1, .str s => dumpString s
  | f + 1, .arr l => '[' :: joinComma (l.map (dumps f)) ++ [']']
  | f + 1, .obj ps =>
    obraceC :: joinComma (ps.map (fun kv => dumpString kv.1 ++ ':' :: ' ' :: dumps f kv.2)) ++ [cbraceC]

/-- Model of `json.dumps(..., ensure_ascii=False)`; the fuel exceeds any
nesting depth arising in the development. -/
def pyDumps (v : Json) : List Char := dumps 1000 v

/-- Python truthiness of a JSON value. -/
def pyTruthy : Json → Bool
  | .null => false
  | .bool b => b
  | .int z => !(z == 0)
  | .float q => !(q.num == 0)
  | .str s => !s.isEmpty
  | .arr l => !l.isEmpty
  | .obj ps => !ps.isEmpty

/-- Escape one character as Python `repr` does inside a string literal
(single-quote convention). -/
def pyReprEscChar (c : Char) : List Char :=
  if c == bslashC then [bslashC, bslashC]
  else if c = Char.ofNat 39 then [bslashC, Char.ofNat 39]
  else if c == '\n' then [bslashC, 'n']
  else if c == '\r' then [bslashC, 'r']
  else if c == '\t' then [bslashC, 't']
  else if c.toNat < 32 then
    [bslashC, 'x', hexDigitChar (c.toNat / 16), hexDigitChar (c.toNat % 16)]
  else [c]

/-- Fueled model of Python `repr` on JSON-shaped values, used by `str` on
containers. -/
def pyRepr : Nat → Json → List Char
  | 0, _ => []
  | _, .null => ("None").toList
  | _, .bool true => ("True").toList
  | _, .bool false => ("False").toList
  | _, .int z => pyIntRepr z
  | _, .float q => pyIntRepr q.num ++ '/' :: Nat.toDigits 10 q.den
  | _, .str s => Char.ofNat 39 :: s.foldr (fun c acc => pyReprEscChar c ++ acc) [Char.ofNat 39]
  | f + 1, .arr l => '[' :: joinComma (l.map (pyRepr f)) ++ [']']
  | f + 1, .obj ps =>
    obraceC :: joinComma (ps.map (fun kv =>
      pyRepr f (.str kv.1) ++ ':' :: ' ' :: pyRepr f kv.2)) ++ [cbraceC]

/-- Python `str()` on a JSON value (floats: placeholder rendering, see the
header; containers: `repr`). -/
def pyStr : Json → List Char
  | .null => ("None").toList
  | .bool true => ("True").toList
  | .bool false => ("False").toList
  | .int z => pyIntRepr z
  | .float q => pyIntRepr q.num ++ '/' :: Nat.toDigits 10 q.den
  | .str s => s
  | .arr l => pyRepr 1000 (.arr l)
  | .obj ps => pyRepr 1000 (.obj ps)

/-! ## The JSON recovery stage (`_coerce_json`, src/app.py lines 123-133) -/

/-- Model of `re.sub(r"^\s*` ``` `(?:json)?\s*", "", t, flags=re.IGNORECASE)`:
if a code fence follows the leading whitespace, remove the whitespace, the
fence, an optional case-insensitive `json` tag, and the whitespace after
them; otherwise the text is unchanged. -/
def dropLeadingFence (cs : List Char) : List Char :=
  let rest := cs.dropWhile isPySpace
  if hasPre (("```").toList) rest then
    let r2 := rest.drop 3
    let r3 := if hasPreCI (("json").toList) r2 then r2.drop 4 else r2
    r3.dropWhile isPySpace
  else cs

/-- Model of `re.sub(r"\s*` ``` `\s*$", "", t)`: if a code fence precedes the
trailing whitespace, remove it together with the whitespace around it;
otherwise the text is unchanged. -/
def dropTrailingFence (cs : List Char) : List Char :=
  let rs := cs.reverse
  let rest := rs.dropWhile isPySpace
  if hasPre (("```").toList) rest then
    ((rest.drop 3).dropWhile isPySpace).reverse
  else cs

/-- Model of `re.search(r"\{[\s\S]*\}", t)`: the substring from the first
opening brace through the last closing brace, when the latter comes after
the former. -/
def braceSpan (cs : List Char) : Option (List Char) :=
  let after := cs.dropWhile (fun c => !(c == obraceC))
  match after with
  | [] => none
  | _ :: _ =>
    let upto := (after.reverse.dropWhile (fun c => !(c == cbraceC))).reverse
    match upto with
    | [] => none
    | _ :: _ => some upto

/-- The candidate text `_coerce_json` hands to `json.loads`: strip, strip a
leading and a trailing code fence, then keep the text if it is brace
delimited, otherwise fall back to the greedy brace span. -/
def coerceJsonCandidate (text_out : List Char) : List Char :=
  let t := dropTrailingFence (dropLeadingFence (pyStrip text_out))
  if hasPre [obraceC] t && hasPre [cbraceC] t.reverse then t
  else
    match braceSpan t with
    | some m => m
    | none => t

/-- Model of `_coerce_json` (src/app.py lines 123-133): recover the candidate
and parse it, raising `json.JSONDecodeError` when parsing fails. -/
def _coerce_json (text_out : List Char) : Except PyErr Json :=
  match pyLoads (coerceJsonCandidate text_out) with
  | some v => .ok v
  | none => .error .jsonDecodeError

/-! ## The TSV serializer (`to_tsv`, src/app.py lines 184-192) -/

/-- Python `x or ""`: keep a truthy value, otherwise the empty string. -/
def orEmpty (v : Json) : Json :=
  if pyTruthy v then v else .str []

/-- Model of `parsed.get(key)` on an object, with Python's `None` default. -/
def jget (ps : List (List Char × Json)) (k : List Char) : Json :=
  (dictGet? ps k).getD .null

/-- The `cols` list built by `to_tsv` (src/app.py lines 185-191). -/
def tsvCols (ps : List (List Char × Json)) : List Json :=
  [orEmpty (jget ps (("datetime").toList)),
   orEmpty (jget ps (("store").toList)),
   .str (pyStr (orEmpty (jget ps (("total_yen").toList)))),
   .str (pyStr (orEmpty (jget ps (("tax_yen").toList)))),
   orEmpty (jget ps (("payment").toList))]

/-- Check that every element is a string, as `"\t".join` requires; a non-string element is a `TypeError`. -/
def strList? : List Json → Option (List (List Char))
  | [] => some []
  | .str s :: t => (strList? t).map (fun l => s :: l)
  | _ :: _ => none

/-- Model of `"\t".join(cols)` on the successfully typed column strings. -/
def joinTabs : List (List Char) → List Char
  | [] => []
  | [s] => s
  | s :: rest => s ++ '\t' :: joinTabs rest

/-- Model of `to_tsv` (src/app.py lines 184-192): one tab-separated summary
row, newline terminated. `.get` on a non-dict raises `AttributeError`, and
`join` raises `TypeError` on a non-string column. -/
def to_tsv (parsed : Json) : Except PyErr (List Char) :=
  match parsed with
  | .obj ps =>
    match strList? (tsvCols ps) with
    | some ss => .ok (joinTabs ss ++ ['\n'])
    | none => .error .typeError
  | _ => .error .attributeError

/-- The composition the spec calls the core pipeline: JSON recovery
(`_coerce_json`) followed by serialization (`to_tsv`). -/
def coerceThenTsv (raw : List Char) : Except PyErr (List Char) :=
  match _coerce_json raw with
  | .ok parsed => to_tsv parsed
  | .error e => .error e

/-! ## Daily limit bookkeeping (src/app.py lines 24-61) -/

/-- Observable states of the usage-counter file. -/
inductive FileState where
  | absent
  | unreadable
  | content (s : List Char)

/-- The persistent state touched by `_save_usage`: the usage file and the
temporary file used by the write-then-rename protocol. -/
structure FS where
  main : FileState
  tmp : Option (List Char)

/-- The record `\x7b"day": today, "count": 0\x7d` used as the fresh counter. -/
def defaultUsage (today : List Char) : Json :=
  .obj [(("day").toList, .str today), (("count").toList, .int 0)]

/-- Model of `_load_usage` (src/app.py lines 34-41): a missing file, an
unreadable file, or a file whose contents `json.loads` rejects all yield
the fresh record for today; otherwise the parsed JSON value is returned. -/
def _load_usage (today : List Char) (fs : FS) : Json :=
  match fs.main with
  | .absent => defaultUsage today
  | .unreadable => defaultUsage today
  | .content s => (pyLoads s).getD (defaultUsage today)

/-- Model of `tmp.write_text(...)`: write the temporary file. -/
def writeTmp (s : List Char) (fs : FS) : FS := ⟨fs.main, some s⟩

/-- Model of `tmp.replace(USAGE_FILE)`: atomically rename the temporary file over the
usage file. -/
def renameTmp (fs : FS) : FS :=
  match fs.tmp with
  | some s => ⟨.content s, none⟩
  | none => fs

/-- Model of `_save_usage` (src/app.py lines 43-47): serialize, write the
temporary file, then atomically rename it over the usage file. -/
def _save_usage (usage : Json) (fs : FS) : FS :=
  renameTmp (writeTmp (pyDumps usage) fs)

/-- Python `value != today` specialised to comparison with a string: only a
string with the same characters compares equal. -/
def pyEqStr (v : Json) (s : List Char) : Bool :=
  match v with
  | .str t => t == s
  | _ => false

/-- Python `dict.get(key, default)`. -/
def jgetD (ps : List (List Char × Json)) (k : List Char) (d : Json) : Json :=
  (dictGet? ps k).getD d

/-- Truncation toward zero of a rational, as Python `int(float)` rounds. -/
def truncRat (q : Rat) : Int := Int.tdiv q.num (Int.ofNat q.den)

/-- Python `int(str)` on a cleaned literal: optional sign then digits.
(The underscore digit grouping Python also accepts is outside the modelled
fragment; no claim exercises it.) -/
def parseIntClean (cs : List Char) : Option Int :=
  match cs with
  | '-' :: r =>
    if !r.isEmpty && r.all (fun c => c.isDigit) then some (-(Int.ofNat (digitsVal r)))
    else Option.none
  | r =>
    if !r.isEmpty && r.all (fun c => c.isDigit) then some (Int.ofNat (digitsVal r))
    else Option.none

/-- Python `int(str)` including the whitespace stripping and explicit plus
sign `int()` accepts. -/
def parseIntPyStr (s : List Char) : Option Int :=
  let t := pyStrip s
  match t with
  | '+' :: r =>
    if !r.isEmpty && r.all (fun c => c.isDigit) then some (Int.ofNat (digitsVal r))
    else Option.none
  | _ => parseIntClean t

/-- Python `int(x)` on a JSON value: ints unchanged, bools as 0/1, floats
truncated toward zero, strings parsed (`ValueError` on failure), anything
else a `TypeError`. -/
def pyToInt : Json → Except PyErr Int
  | .int z => .ok z
  | .bool b => .ok (if b then 1 else 0)
  | .float q => .ok (truncRat q)
  | .str s =>
    match parseIntPyStr s with
    | some z => .ok z
    | none => .error .valueError
  | .null => .error .typeError
  | .arr _ => .error .typeError
  | .obj _ => .error .typeError

/-- The message of the quota error raised by `check_daily_limit`. -/
def quotaMsg (limit : Int) : List Char :=
  ("Daily limit exceeded: ").toList ++ pyIntRepr limit

/-- Model of `check_daily_limit` (src/app.py lines 49-61): load the counter,
reset it when the stored day differs from today, raise `RuntimeError` when
the count has reached the limit (leaving the file untouched), otherwise
increment and persist via `_save_usage`. -/
def check_daily_limit (limit : Int) (today : List Char) (fs : FS) :
    Except PyErr Unit × FS :=
  match _load_usage today fs with
  | .obj ps =>
    let d := jget ps (("day").toList)
    let ps2 := if pyEqStr d today then ps
      else [(("day").toList, .str today), (("count").toList, .int 0)]
    match pyToInt (jgetD ps2 (("count").toList) (.int 0)) with
    | .error e => (.error e, fs)
    | .ok count =>
      if limit ≤ count then (.error (.runtimeError (quotaMsg limit)), fs)
      else (.ok (), _save_usage (.obj (dictInsert ps2 (("count").toList) (.int (count + 1)))) fs)
  | _ => (.error .attributeError, fs)

/-! ## The orchestrator (`gemini_parse_receipt`, src/app.py lines 135-180)
and the `/parse` endpoint (src/app.py lines 200-211) -/

/-- One invocation of the generation backend: the prompt and the sampling
temperature passed in `generation_config`. -/
structure GenCall where
  prompt : List Char
  temperature : Int

/-- The fixed instruction text preceding the embedded OCR text in the
prompt f-string (src/app.py lines 139-171), braces written as escapes. -/
def promptHead : List Char :=
  ("\nあなたはレシートOCRテキストを家計簿入力用に構造化します。\n" ++
   "次の text から情報を抽出して、JSONのみで返してください（説明文禁止）。\n\n" ++
   "出力JSONのスキーマ（必ずこのキーを出す）:\n" ++
   "\x7b\n" ++
   "  \"store\": string|null,\n" ++
   "  \"datetime\": string|null,   // 例: \"2025-12-21 16:49\"\n" ++
   "  \"total_yen\": int|null,\n" ++
   "  \"tax_yen\": int|null,\n" ++
   "  \"payment\": string|null,    // 例: \"カード\" \"現金\"\n" ++
   "  \"items\": [\n" ++
   "    \x7b\n" ++
   "      \"name\": string,\n" ++
   "      \"qty\": int|null,\n" ++
   "      \"unit_yen\": int|null,\n" ++
   "      \"line_yen\": int|null,\n" ++
   "      \"tax_rate\": int|null    // 8 or 10。分からなければ null\n" ++
   "    \x7d\n" ++
   "  ]\n" ++
   "\x7d\n\n" ++
   "ルール:\n" ++
   "- \"items\" には「商品」だけ入れる。次は items に入れない:\n" ++
   "  小計, 合計, 税, 対象額, お預り, お釣り, ポイント, 登録番号, 電話番号, 取引番号, 担当者, 注意書き\n" ++
   "- 金額は「¥」「・」「,」などが混ざっても int にする（例: \"·1,531\" → 1531）\n" ++
   "- (6個x@128) のような表記があれば qty=6, unit_yen=128, line_yen=768 を優先\n" ++
   "- 1行に品名と金額が揃っていない場合は、近い行同士を対応づけて推測してよい\n" ++
   "- 可能なら items の合計が total_yen と矛盾しないようにする（完全一致できなくてもOK）\n\n" ++
   "text:\n").toList

/-- The prompt built by `gemini_parse_receipt`: the f-string with the OCR
text embedded verbatim, then `.strip()`. -/
def promptTemplate (text : List Char) : List Char :=
  pyStrip (promptHead ++ text ++ ['\n'])

/-- Model of `_require_env` (src/app.py lines 65-69): a missing or empty
environment variable raises `RuntimeError`. -/
def _require_env (name : List Char) (v : Option (List Char)) : Except PyErr (List Char) :=
  match v with
  | some s =>
    if s.isEmpty then .error (.runtimeError (("Missing env var: ").toList ++ name))
    else .ok s
  | none => .error (.runtimeError (("Missing env var: ").toList ++ name))

/-- Model of `gemini_parse_receipt` (src/app.py lines 135-180). The backend
and the attribute-walking response-text extraction are external
collaborators, taken as parameters; the call trace is returned so that the
number of backend invocations and their configuration are observable. -/
def gemini_parse_receipt {α : Type} (apiKey : Option (List Char))
    (backend : GenCall → Except PyErr α)
    (extractText : α → Except PyErr (List Char))
    (text : List Char) : Except PyErr Json × List GenCall :=
  match _require_env (("GEMINI_API_KEY").toList) apiKey with
  | .error e => (.error e, [])
  | .ok _ =>
    let call : GenCall := ⟨promptTemplate text, 0⟩
    match backend call with
    | .error e => (.error e, [call])
    | .ok resp =>
      match extractText resp with
      | .error e => (.error e, [call])
      | .ok t => (_coerce_json t, [call])

/-- An HTTP response of the `/parse` endpoint. -/
structure Response where
  status : Nat
  body : List Char

/-- The catch-all error response of `parse_receipt` (src/app.py lines
208-211): status 500 and the line `ERROR<tab>type(e).__name__<tab>str(e)`. -/
def errorResponse (e : PyErr) : Response :=
  ⟨500, ("ERROR\t").toList ++ e.typeName ++ '\t' :: e.message ++ ['\n']⟩

/-- Model of the `/parse` endpoint `parse_receipt` (src/app.py lines
200-211): enforce the daily limit, run the extraction pipeline, and render
any raised exception as the 500 error line. -/
def parse_receipt {α : Type} (limit : Int) (today : List Char) (fs : FS)
    (apiKey : Option (List Char)) (backend : GenCall → Except PyErr α)
    (extractText : α → Except PyErr (List Char)) (text : List Char) :
    Response × FS :=
  match check_daily_limit limit today fs with
  | (.error e, fs2) => (errorResponse e, fs2)
  | (.ok _, fs2) =>
    match (gemini_parse_receipt apiKey backend extractText text).1 with
    | .error e => (errorResponse e, fs2)
    | .ok parsed =>
      match to_tsv parsed with
      | .ok body => (⟨200, body⟩, fs2)
      | .error e => (errorResponse e, fs2)

/-! ## The Numeric Coercer (spec section 4.1) -/

/-- Python values a numeric field can carry, as the Numeric Coercer's input
domain. -/
inductive PyVal where
  | none
  | int (z : Int)
  | float (q : Rat)
  | str (s : List Char)
  | other

/-- Modelled from the spec: the Numeric Coercer `coerce_int` of spec section
4.1 belongs to the repository's normalization layer, which is not among the
files under src/ (src/app.py contains no numeric coercion). Following the
spec's words: null stays null, integers pass through, floats truncate
toward zero, strings are cleaned of currency markers, decorative separators
and every other non-digit non-minus character and then parsed (empty, lone
minus, or unparseable remainders give null), and any other type gives
null; the function is total, never raising. -/
def coerce_int : PyVal → Option Int
  | .none => Option.none
  | .int z => some z
  | .float q => some (truncRat q)
  | .str s =>
    let cleaned := s.filter (fun c => c.isDigit || c == '-')
    if cleaned.isEmpty || cleaned == ['-'] then Option.none
    else parseIntClean cleaned
  | .other => Option.none

/-- The raw backend text of end-to-end scenario 1. -/
def rawScenario1 : List Char :=
  ("```json\n\x7b\"store\":\"ABC\",\"datetime\":\"2025-12-21 16:49\",\"total_yen\":\"¥1,500\",\"tax_yen\":150,\"payment\":\"カード\",\"items\":[\x7b\"name\":\"パン\",\"qty\":2,\"unit_yen\":150,\"line_yen\":300,\"tax_rate\":8\x7d]\x7d\n```").toList

/-- The TSV string the spec's end-to-end scenario 1 claims; `to_tsv` in fact
never emits the second (detail) row. -/
def claimedScenario1 : List Char :=
  ("2025-12-21 16:49\tABC\t1500\t150\tカード\n\tパン\t2\t150\t300\t8\n").toList

/-- The TSV string the program actually produces in scenario 1. -/
def actualScenario1 : List Char :=
  ("2025-12-21 16:49\tABC\t¥1,500\t150\tカード\n").toList

/-- The members of a parsed receipt object with exactly one (named) line
item, used to refute the N-items-give-N-plus-1-lines reading of `to_tsv`. -/
def receiptOneItemPairs : List (List Char × Json) :=
  [(("datetime").toList, .str (("2025-12-21 16:49").toList)),
   (("store").toList, .str (("ABC").toList)),
   (("total_yen").toList, .int 1500),
   (("tax_yen").toList, .int 150),
   (("payment").toList, .str (("カード").toList)),
   (("items").toList,
     .arr [Json.obj [(("name").toList, .str (("パン").toList)),
                     (("qty").toList, .int 2),
                     (("unit_yen").toList, .int 150),
                     (("line_yen").toList, .int 300),
                     (("tax_rate").toList, .int 8)]])]

/-- A parsed receipt object with exactly one (named) line item. -/
def receiptOneItem : Json := .obj receiptOneItemPairs

/-- The list of line items of a parsed receipt object. -/
def itemsOf (j : Json) : List Json :=
  match j with
  | .obj ps =>
    match jget ps (("items").toList) with
    | .arr l => l
    | _ => []
  | _ => []

/-- A backend reply that is plain prose with no brace pair. -/
def proseReply : List Char :=
  ("I could not find a receipt in the provided text.").toList

/-- The usage record `\x7b"day": d, "count": c\x7d`. -/
def usageRecord (d : List Char) (c : Int) : Json :=
  .obj [(("day").toList, .str d), (("count").toList, .int c)]

/-! ## Spec-worded restatement of the candidate-selection algorithm
(spec section 4.2 steps 1-4), used to compare `_coerce_json` against the
spec's enumerated steps. -/

/-- Spec step 2, leading half: strip a leading code-fence marker, optionally
tagged `json` case-insensitively, if present. -/
def specFenceHead (cs : List Char) : List Char :=
  if hasPre (("```").toList) cs then
    let r := cs.drop 3
    if hasPreCI (("json").toList) r then r.drop 4 else r
  else cs

/-- Spec step 2, trailing half: strip a trailing code-fence marker, if
present. -/
def specFenceTail (cs : List Char) : List Char :=
  if hasPre (("```").toList) cs.reverse then (cs.reverse.drop 3).reverse else cs

/-- The candidate text per the spec's ordered steps 1-4, each step applied
to the trimmed output of the previous one: trim; strip fence markers; keep
a brace-delimited text as-is; otherwise take the greedy first-brace-to-
last-brace span. -/
def spec_candidate (raw : List Char) : List Char :=
  let t1 := pyStrip raw
  let t2 := pyStrip (specFenceHead t1)
  let t3 := pyStrip (specFenceTail t2)
  if hasPre [obraceC] t3 && hasPre [cbraceC] t3.reverse then t3
  else
    match braceSpan t3 with
    | some m => m
    | none => t3

/-! ## Helper lemmas -/

theorem dropWhile_idem (p : Char → Bool) (l : List Char) :
    (l.dropWhile p).dropWhile p = l.dropWhile p := by
  induction l with
  | nil => rfl
  | cons c t ih =>
    by_cases h : p c
    · simp [List.dropWhile_cons, h, ih]
    · simp [List.dropWhile_cons, h]

theorem dropWhile_eq_drop (p : Char → Bool) (l : List Char) :
    l.dropWhile p = l.drop (l.takeWhile p).length := by
  induction l with
  | nil => rfl
  | cons c t ih =>
    by_cases h : p c
    · simp [List.dropWhile_cons, List.takeWhile_cons, h, ih]
    · simp [List.dropWhile_cons, List.takeWhile_cons, h]

theorem length_dropWhile_le (p : Char → Bool) (l : List Char) :
    (l.dropWhile p).length ≤ l.length := by
  induction l with
  | nil => simp
  | cons c t ih =>
    by_cases h : p c
    · rw [List.dropWhile_cons_of_pos h]
      simp only [List.length_cons]
      omega
    · rw [List.dropWhile_cons_of_neg h]

theorem take_noLead (p : Char → Bool) (l : List Char) (m : Nat)
    (h : l.dropWhile p = l) : (l.take m).dropWhile p = l.take m := by
  cases l with
  | nil => simp
  | cons c t =>
    cases m with
    | zero => simp
    | succ m2 =>
      have hc : p c = false := by
        by_contra hc
        have hc2 : p c = true := by
          cases hpc : p c
          · exact absurd hpc hc
          · rfl
        rw [List.dropWhile_cons_of_pos hc2] at h
        have hlen := length_dropWhile_le p t
        rw [h] at hlen
        simp only [List.length_cons] at hlen
        omega
      have hc3 : ¬ p c = true := by simp [hc]
      simp [List.take_succ_cons, List.dropWhile_cons_of_neg hc3]

theorem drop_noTrail (p : Char → Bool) (l : List Char) (k : Nat)
    (h : l.reverse.dropWhile p = l.reverse) :
    (l.drop k).reverse.dropWhile p = (l.drop k).reverse := by
  rw [List.reverse_drop]
  exact take_noLead p l.reverse _ h

theorem pyStrip_of_noTrail (l : List Char)
    (h : l.reverse.dropWhile isPySpace = l.reverse) :
    pyStrip l = l.dropWhile isPySpace := by
  unfold pyStrip
  rw [dropWhile_eq_drop isPySpace l, drop_noTrail isPySpace l _ h,
    List.reverse_reverse, ← dropWhile_eq_drop]

theorem noLead_pyStrip (l : List Char) :
    (pyStrip l).dropWhile isPySpace = pyStrip l := by
  unfold pyStrip
  rw [dropWhile_eq_drop isPySpace ((l.dropWhile isPySpace).reverse),
    List.reverse_drop, List.reverse_reverse]
  exact take_noLead isPySpace _ _ (dropWhile_idem isPySpace l)

theorem noTrail_pyStrip (l : List Char) :
    (pyStrip l).reverse.dropWhile isPySpace = (pyStrip l).reverse := by
  unfold pyStrip
  rw [List.reverse_reverse]
  exact dropWhile_idem isPySpace _

theorem pyStrip_stripped_id (l : List Char)
    (h1 : l.dropWhile isPySpace = l)
    (h2 : l.reverse.dropWhile isPySpace = l.reverse) : pyStrip l = l := by
  unfold pyStrip
  rw [h1, h2, List.reverse_reverse]

theorem dropWhile_noTrail (p : Char → Bool) (l : List Char)
    (h : l.reverse.dropWhile p = l.reverse) :
    (l.dropWhile p).reverse.dropWhile p = (l.dropWhile p).reverse := by
  rw [dropWhile_eq_drop p l]
  exact drop_noTrail p l _ h

/-- Code-versus-spec agreement for the leading fence strip, on stripped
input. -/
theorem dropLeadingFence_spec (t1 : List Char)
    (h1 : t1.dropWhile isPySpace = t1)
    (h2 : t1.reverse.dropWhile isPySpace = t1.reverse) :
    dropLeadingFence t1 = pyStrip (specFenceHead t1) := by
  unfold dropLeadingFence specFenceHead
  rw [h1]
  by_cases hf : hasPre (("```").toList) t1 = true
  · simp only [hf, Bool.false_eq_true, if_true, if_false]
    by_cases ht : hasPreCI (("json").toList) (t1.drop 3) = true
    · simp only [ht, Bool.false_eq_true, if_true, if_false]
      rw [List.drop_drop, pyStrip_of_noTrail _ (drop_noTrail isPySpace t1 _ h2)]
    · simp only [ht, Bool.false_eq_true, if_true, if_false]
      rw [pyStrip_of_noTrail _ (drop_noTrail isPySpace t1 _ h2)]
  · simp only [hf, Bool.false_eq_true, if_true, if_false]
    exact (pyStrip_stripped_id t1 h1 h2).symm

/-- Code-versus-spec agreement for the trailing fence strip, on stripped
input. -/
theorem dropTrailingFence_spec (x : List Char)
    (h1 : x.dropWhile isPySpace = x)
    (h2 : x.reverse.dropWhile isPySpace = x.reverse) :
    dropTrailingFence x = pyStrip (specFenceTail x) := by
  simp only [dropTrailingFence, specFenceTail]
  rw [h2]
  by_cases hf : hasPre (("```").toList) x.reverse = true
  · simp only [hf, Bool.false_eq_true, if_true, if_false]
    have hW1 : ((x.reverse.drop 3).reverse).dropWhile isPySpace =
        (x.reverse.drop 3).reverse := by
      rw [List.reverse_drop, List.reverse_reverse]
      exact take_noLead isPySpace x _ h1
    unfold pyStrip
    rw [hW1, List.reverse_reverse]
  · simp only [hf, Bool.false_eq_true, if_true, if_false]
    exact (pyStrip_stripped_id x h1 h2).symm

/-- The result of the leading fence strip on stripped input has no leading
whitespace. -/
theorem dropLeadingFence_noLead (t1 : List Char)
    (h1 : t1.dropWhile isPySpace = t1) :
    (dropLeadingFence t1).dropWhile isPySpace = dropLeadingFence t1 := by
  unfold dropLeadingFence
  rw [h1]
  by_cases hf : hasPre (("```").toList) t1 = true
  · simp only [hf, if_true]
    by_cases ht : hasPreCI (("json").toList) (t1.drop 3) = true
    · simp only [ht, if_true]
      exact dropWhile_idem isPySpace _
    · simp only [ht, if_false]
      exact dropWhile_idem isPySpace _
  · simp only [hf, if_false]
    exact h1

/-- The result of the leading fence strip on stripped input has no trailing
whitespace. -/
theorem dropLeadingFence_noTrail (t1 : List Char)
    (h1 : t1.dropWhile isPySpace = t1)
    (h2 : t1.reverse.dropWhile isPySpace = t1.reverse) :
    (dropLeadingFence t1).reverse.dropWhile isPySpace =
      (dropLeadingFence t1).reverse := by
  unfold dropLeadingFence
  rw [h1]
  by_cases hf : hasPre (("```").toList) t1 = true
  · simp only [hf, if_true]
    by_cases ht : hasPreCI (("json").toList) (t1.drop 3) = true
    · simp only [ht, if_true]
      exact dropWhile_noTrail isPySpace _ (by
        rw [List.drop_drop]
        exact drop_noTrail isPySpace t1 _ h2)
    · simp only [ht, if_false]
      exact dropWhile_noTrail isPySpace _ (drop_noTrail isPySpace t1 _ h2)
  · simp only [hf, if_false]
    exact h2

/-- The code's candidate selection agrees with the spec's enumerated
steps on every input. -/
theorem coerceJsonCandidate_eq_spec (raw : List Char) :
    coerceJsonCandidate raw = spec_candidate raw := by
  have hT : dropTrailingFence (dropLeadingFence (pyStrip raw)) =
      pyStrip (specFenceTail (pyStrip (specFenceHead (pyStrip raw)))) := by
    rw [← dropLeadingFence_spec (pyStrip raw) (noLead_pyStrip raw) (noTrail_pyStrip raw)]
    exact dropTrailingFence_spec _ (dropLeadingFence_noLead _ (noLead_pyStrip raw))
      (dropLeadingFence_noTrail _ (noLead_pyStrip raw) (noTrail_pyStrip raw))
  simp only [coerceJsonCandidate, spec_candidate, hT]

theorem dictGet?_insert_self (ps : List (List Char × Json)) (k : List Char) (v : Json) :
    dictGet? (dictInsert ps k v) k = some v := by
  induction ps with
  | nil => simp [dictInsert, dictGet?]
  | cons kv t ih =>
    obtain ⟨a, b⟩ := kv
    by_cases ha : a = k
    · simp [dictInsert, dictGet?, ha]
    · simp [dictInsert, dictGet?, ha, ih]

theorem dictGet?_insert_ne (ps : List (List Char × Json)) (k k2 : List Char) (v : Json)
    (h : k2 ≠ k) : dictGet? (dictInsert ps k v) k2 = dictGet? ps k2 := by
  induction ps with
  | nil => simp [dictInsert, dictGet?, Ne.symm h]
  | cons kv t ih =>
    obtain ⟨a, b⟩ := kv
    by_cases ha : a = k
    · subst ha
      simp [dictInsert, dictGet?, Ne.symm h]
    · by_cases ha2 : a = k2
      · simp [dictInsert, dictGet?, ha, ha2, h]
      · simp [dictInsert, dictGet?, ha, ha2, h, ih]

theorem count_joinTabs_other (c : Char) (hc : ¬ c = '\t') (ss : List (List Char))
    (h : ∀ s ∈ ss, ¬ c ∈ s) : (joinTabs ss).count c = 0 := by
  induction ss with
  | nil => simp [joinTabs]
  | cons s rest ih =>
    cases rest with
    | nil =>
      simp only [joinTabs]
      exact List.count_eq_zero.mpr (h s (by simp))
    | cons s2 r2 =>
      have h1 : (joinTabs (s2 :: r2)).count c = 0 :=
        ih (fun x hx => h x (List.mem_cons_of_mem s hx))
      have h0 : s.count c = 0 := List.count_eq_zero.mpr (h s (by simp))
      simp [joinTabs, List.count_append, List.count_cons, h0, h1, hc]

theorem count_joinTabs_tab (ss : List (List Char))
    (h : ∀ s ∈ ss, ¬ '\t' ∈ s) (hne : ss ≠ []) :
    (joinTabs ss).count '\t' = ss.length - 1 := by
  induction ss with
  | nil => exact absurd rfl hne
  | cons s rest ih =>
    cases rest with
    | nil =>
      simp only [joinTabs, List.length_cons]
      simp [List.count_eq_zero.mpr (h s (by simp))]
    | cons s2 r2 =>
      have h1 : (joinTabs (s2 :: r2)).count '\t' = (s2 :: r2).length - 1 :=
        ih (fun x hx => h x (List.mem_cons_of_mem s hx)) (by simp)
      have h0 : s.count '\t' = 0 := List.count_eq_zero.mpr (h s (by simp))
      simp [joinTabs, List.count_append, List.count_cons, h0, h1]

theorem strList?_length (l : List Json) :
    ∀ ss, strList? l = some ss → ss.length = l.length := by
  induction l with
  | nil =>
    intro ss h
    simp [strList?] at h
    simp [← h]
  | cons x t ih =>
    intro ss h
    cases x <;> simp [strList?] at h
    obtain ⟨l2, hl2, hss⟩ := h
    subst hss
    simp [ih l2 hl2]

theorem to_tsv_obj (ps : List (List Char × Json)) :
    to_tsv (Json.obj ps) =
      (match strList? (tsvCols ps) with
       | some ss => Except.ok (joinTabs ss ++ ['\n'])
       | none => Except.error PyErr.typeError) := rfl

theorem tsvCols_insert_congr (k : List Char) (x y : Json)
    (hxy : orEmpty x = orEmpty y) (ps : List (List Char × Json)) :
    tsvCols (dictInsert ps k x) = tsvCols (dictInsert ps k y) := by
  have hcol : ∀ k0, orEmpty (jget (dictInsert ps k x) k0) =
      orEmpty (jget (dictInsert ps k y) k0) := by
    intro k0
    by_cases h : k0 = k
    · subst h
      unfold jget
      rw [dictGet?_insert_self, dictGet?_insert_self]
      exact hxy
    · unfold jget
      rw [dictGet?_insert_ne _ _ _ _ h, dictGet?_insert_ne _ _ _ _ h]
  simp only [tsvCols, hcol]

theorem tsvCols_insert_items (ps : List (List Char × Json)) (v : Json) :
    tsvCols (dictInsert ps (("items").toList) v) = tsvCols ps := by
  unfold tsvCols jget
  rw [dictGet?_insert_ne _ _ _ _ (by decide), dictGet?_insert_ne _ _ _ _ (by decide),
    dictGet?_insert_ne _ _ _ _ (by decide), dictGet?_insert_ne _ _ _ _ (by decide),
    dictGet?_insert_ne _ _ _ _ (by decide)]

/-! ## Claim theorems -/

/-- C1, counterexample: on the raw backend text of end-to-end scenario 1,
the JSON recovery stage followed by the serializer produces the single
summary row with the quoted total `¥1,500` passed through verbatim — not
the TSV string the claim specifies (total coerced to `1500` plus a detail
row for the item). -/
theorem C1_counterexample :
    coerceThenTsv rawScenario1 = Except.ok actualScenario1 ∧
    actualScenario1 ≠ claimedScenario1 := by
  exact ⟨rfl, by decide⟩

/-- C1, amended: passing the scenario 1 raw text through `_coerce_json` and
then `to_tsv` yields exactly `2025-12-21 16:49<tab>ABC<tab>¥1,500<tab>150<tab>カード<newline>`:
the code fence is stripped and the object parsed, but the quoted total is
not coerced to an integer and no detail row is emitted for the item. -/
theorem C1_actual_output :
    coerceThenTsv rawScenario1 =
      Except.ok (("2025-12-21 16:49\tABC\t¥1,500\t150\tカード\n").toList) := rfl

/-- C4, counterexample: for the raw text `[1, 2]` the recovered candidate
parses as a JSON array with two elements, and `_coerce_json` returns the
whole array — not its first element as the claim states. -/
theorem C4_counterexample :
    _coerce_json (("[1, 2]").toList) = Except.ok (Json.arr [Json.int 1, Json.int 2]) ∧
    Json.arr [Json.int 1, Json.int 2] ≠ Json.int 1 :=
  ⟨rfl, fun h => Json.noConfusion h⟩

/-- C4, amended: `_coerce_json` performs no singleton-array unwrapping — it
returns whatever JSON value the candidate parses to, unchanged. The spec's
`[\x7b...\x7d]` example still yields the inner object, but only because the
greedy brace span cuts the array brackets off before parsing. -/
theorem C4_no_unwrapping :
    (∀ s v, pyLoads (coerceJsonCandidate s) = some v →
      _coerce_json s = Except.ok v) ∧
    _coerce_json (("[\x7b\"a\": 1\x7d]").toList) =
      Except.ok (Json.obj [(("a").toList, Json.int 1)]) := by
  constructor
  · intro s v h
    unfold _coerce_json
    rw [h]
  · rfl

/-- Witness for the amended C4 theorem at the concrete input `[1, 2]`. -/
theorem C4_no_unwrapping_witness :
    _coerce_json (("[1, 2]").toList) =
      Except.ok (Json.arr [Json.int 1, Json.int 2]) :=
  C4_no_unwrapping.1 (("[1, 2]").toList) (Json.arr [Json.int 1, Json.int 2]) rfl

/-- C5, counterexample: on plain prose with no brace pair, `_coerce_json`
fails with the exception class `JSONDecodeError` — there is no
`MalformedResponse` error kind in the program, and the decode error does
not carry the original raw text. -/
theorem C5_counterexample :
    _coerce_json proseReply = Except.error PyErr.jsonDecodeError ∧
    PyErr.typeName PyErr.jsonDecodeError = ("JSONDecodeError").toList ∧
    ("JSONDecodeError").toList ≠ ("MalformedResponse").toList ∧
    PyErr.message PyErr.jsonDecodeError = [] :=
  ⟨rfl, rfl, by decide, rfl⟩

/-- C5, amended: when no JSON can be recovered the extraction stage fails
with `json.JSONDecodeError` (carrying no raw text), and the `/parse`
endpoint — the program has no `extract_and_serialize` — catches any
pipeline error and answers status 500 with the line
`ERROR<tab>type(e).__name__<tab>str(e)`. -/
theorem C5_malformed_behavior :
    (∀ s, pyLoads (coerceJsonCandidate s) = Option.none →
      _coerce_json s = Except.error PyErr.jsonDecodeError) ∧
    (∀ (limit : Int) (today : List Char) (fs fs2 : FS)
       (key text bt : List Char) (e : PyErr),
      check_daily_limit limit today fs = (Except.ok (), fs2) →
      key ≠ [] →
      _coerce_json bt = Except.error e →
      parse_receipt limit today fs (some key) (fun _ => Except.ok bt)
        (fun t => Except.ok t) text = (errorResponse e, fs2)) ∧
    (∀ e, (errorResponse e).status = 500 ∧
      (errorResponse e).body =
        ("ERROR\t").toList ++ PyErr.typeName e ++ '\t' :: PyErr.message e ++ ['\n']) := by
  refine ⟨?_, ?_, ?_⟩
  · intro s h
    unfold _coerce_json
    rw [h]
  · intro limit today fs fs2 key text bt e hq hk hc
    have hkey : key.isEmpty = false := by
      cases key with
      | nil => exact absurd rfl hk
      | cons c t => rfl
    simp only [parse_receipt, gemini_parse_receipt, _require_env, hq, hkey,
      Bool.false_eq_true, if_false, hc]
  · intro e
    exact ⟨rfl, rfl⟩

/-- Witness for the amended C5 theorem: a fresh counter file, a present API
key, and the prose backend reply produce the 500 `JSONDecodeError` line. -/
theorem C5_malformed_behavior_witness :
    parse_receipt 50 (("2025-10-12").toList) (FS.mk FileState.absent Option.none)
      (some (("k").toList)) (fun _ => Except.ok proseReply)
      (fun t => Except.ok t) (("x").toList) =
    (errorResponse PyErr.jsonDecodeError,
      FS.mk (FileState.content (("\x7b\"day\": \"2025-10-12\", \"count\": 1\x7d").toList))
        Option.none) :=
  C5_malformed_behavior.2.1 50 (("2025-10-12").toList)
    (FS.mk FileState.absent Option.none) _ (("k").toList) (("x").toList)
    proseReply PyErr.jsonDecodeError rfl (by decide) rfl

/-- C6 (spec-modelled Numeric Coercer): null and non-numeric types map to
null, integers pass through, floats truncate toward zero (`3.9` to `3`,
`-3.9` to `-3`), and strings are cleaned down to their digit and minus
characters and parsed, with empty, lone-minus, and unparseable remainders
mapping to null; cleaning is idempotent, so decorations such as `¥`, `·`
and `,` never affect the value (`¥·1,531` gives `1531`). The function is
total by construction — it never raises. -/
theorem C6_coerce_int :
    coerce_int PyVal.none = Option.none ∧
    coerce_int PyVal.other = Option.none ∧
    (∀ z, coerce_int (PyVal.int z) = some z) ∧
    (∀ q, coerce_int (PyVal.float q) = some (truncRat q)) ∧
    coerce_int (PyVal.float (mkRat 39 10)) = some 3 ∧
    coerce_int (PyVal.float (mkRat (-39) 10)) = some (-3) ∧
    coerce_int (PyVal.str (("¥·1,531").toList)) = some 1531 ∧
    coerce_int (PyVal.str []) = Option.none ∧
    coerce_int (PyVal.str (("-").toList)) = Option.none ∧
    coerce_int (PyVal.str (("1-2").toList)) = Option.none ∧
    (∀ s, coerce_int (PyVal.str s) =
      coerce_int (PyVal.str (s.filter (fun c => c.isDigit || c == '-')))) := by
  refine ⟨rfl, rfl, fun z => rfl, fun q => rfl, by decide, by decide, by decide,
    by decide, by decide, by decide, ?_⟩
  intro s
  simp only [coerce_int]
  rw [List.filter_filter]
  simp only [Bool.and_self]

theorem hasPre_single (c : Char) (l : List Char) (h : hasPre [c] l = true) :
    ∃ t, l = c :: t := by
  cases l with
  | nil => simp [hasPre] at h
  | cons x xs =>
    refine ⟨xs, ?_⟩
    have hx : (c == x) = true := by
      by_contra hcx
      have hf : (c == x) = false := by
        cases hv : c == x
        · rfl
        · exact absurd hv hcx
      simp [hasPre, hf] at h
    rw [beq_iff_eq.mp hx]

/-- C3: the candidate selection inside `_coerce_json` agrees with the
spec's ordered steps (trim, strip fences, keep brace-delimited text,
otherwise greedy brace span) on every input; it recovers the object from
prose-prefixed text; and on already-clean brace-delimited JSON object text
it returns the text unchanged. -/
theorem C3_candidate_selection :
    (∀ raw, coerceJsonCandidate raw = spec_candidate raw) ∧
    coerceJsonCandidate (("Here is the result:\n\x7b\"a\": 1\x7d").toList) =
      (("\x7b\"a\": 1\x7d").toList) ∧
    _coerce_json (("Here is the result:\n\x7b\"a\": 1\x7d").toList) =
      Except.ok (Json.obj [(("a").toList, Json.int 1)]) ∧
    (∀ s, hasPre [obraceC] s = true → hasPre [cbraceC] s.reverse = true →
      coerceJsonCandidate s = s) := by
  refine ⟨coerceJsonCandidate_eq_spec, by decide, rfl, ?_⟩
  intro s h1 h2
  obtain ⟨t1, ht1⟩ := hasPre_single obraceC s h1
  obtain ⟨t2, ht2⟩ := hasPre_single cbraceC s.reverse h2
  have hs1 : s.dropWhile isPySpace = s := by
    rw [ht1]
    exact List.dropWhile_cons_of_neg (by decide)
  have hs2 : s.reverse.dropWhile isPySpace = s.reverse := by
    rw [ht2]
    exact List.dropWhile_cons_of_neg (by decide)
  have hlead : dropLeadingFence s = s := by
    simp only [dropLeadingFence, hs1]
    rw [ht1]
    rfl
  have htrail : dropTrailingFence s = s := by
    simp only [dropTrailingFence, hs2]
    rw [ht2]
    rfl
  simp only [coerceJsonCandidate, pyStrip_stripped_id s hs1 hs2, hlead, htrail]
  simp [h1, h2]

/-- Witness for C3 at the concrete clean object text `\x7b\x7d`. -/
theorem C3_candidate_selection_witness :
    coerceJsonCandidate (("\x7b\x7d").toList) = ("\x7b\x7d").toList :=
  C3_candidate_selection.2.2.2 (("\x7b\x7d").toList) rfl rfl

/-- C2, counterexample: a receipt object carrying one well-formed line item
still serializes to a single newline-terminated summary row — `to_tsv`
emits no detail rows, so one item yields 1 line, not 2. -/
theorem C2_counterexample :
    to_tsv receiptOneItem =
      Except.ok (("2025-12-21 16:49\tABC\t1500\t150\tカード\n").toList) ∧
    (itemsOf receiptOneItem).length = 1 ∧
    ((("2025-12-21 16:49\tABC\t1500\t150\tカード\n").toList).count '\n' = 1 ∧
     ¬ (("2025-12-21 16:49\tABC\t1500\t150\tカード\n").toList).count '\n' = 2) :=
  ⟨rfl, rfl, by decide, by decide⟩

/-- C2, amended: `to_tsv` ignores the items sequence entirely — inserting
any items value leaves the output unchanged — and for every receipt object
whose five summary columns are strings free of tab and newline characters,
the output is exactly one newline-terminated line with exactly five
tab-separated fields (four tabs), regardless of how many items the receipt
carries. -/
theorem C2_single_summary_line :
    (∀ ps v, to_tsv (Json.obj (dictInsert ps (("items").toList) v)) =
      to_tsv (Json.obj ps)) ∧
    (∀ ps ss, strList? (tsvCols ps) = some ss →
      ss.length = 5 ∧
      ((∀ s, s ∈ ss → ¬ '\t' ∈ s ∧ ¬ '\n' ∈ s) →
        to_tsv (Json.obj ps) = Except.ok (joinTabs ss ++ ['\n']) ∧
        (joinTabs ss ++ ['\n']).count '\n' = 1 ∧
        (joinTabs ss ++ ['\n']).count '\t' = 4 ∧
        (joinTabs ss ++ ['\n']).getLast? = some '\n')) := by
  constructor
  · intro ps v
    rw [to_tsv_obj, to_tsv_obj, tsvCols_insert_items]
  · intro ps ss h
    have hlen : ss.length = 5 := by
      rw [strList?_length (tsvCols ps) ss h]
      rfl
    refine ⟨hlen, fun hcl => ⟨?_, ?_, ?_, ?_⟩⟩
    · rw [to_tsv_obj, h]
    · rw [List.count_append]
      have h0 := count_joinTabs_other '\n' (by decide) ss (fun s hs => (hcl s hs).2)
      simp [h0]
    · rw [List.count_append]
      have h4 := count_joinTabs_tab ss (fun s hs => (hcl s hs).1) (by
        intro hss
        rw [hss] at hlen
        simp at hlen)
      simp [h4, hlen]
    · exact List.getLast?_concat _

/-- Witness for the amended C2 theorem at the one-item receipt. -/
theorem C2_single_summary_line_witness :
    to_tsv receiptOneItem =
      Except.ok (joinTabs [("2025-12-21 16:49").toList, ("ABC").toList,
        ("1500").toList, ("150").toList, ("カード").toList] ++ ['\n']) :=
  ((C2_single_summary_line.2 receiptOneItemPairs
    [("2025-12-21 16:49").toList, ("ABC").toList, ("1500").toList,
     ("150").toList, ("カード").toList] rfl).2 (by decide)).1

/-- C9 (implicit): `to_tsv` renders every falsy summary value as the empty
string, so a total or tax of integer 0 serializes identically to null (the
digit `0` never appears), and an empty store, datetime or payment string is
indistinguishable from null. -/
theorem C9_falsy_rendering :
    (∀ v, pyTruthy v = false → orEmpty v = Json.str []) ∧
    pyStr (orEmpty (Json.int 0)) = [] ∧
    (∀ ps, to_tsv (Json.obj (dictInsert ps (("total_yen").toList) (Json.int 0))) =
      to_tsv (Json.obj (dictInsert ps (("total_yen").toList) Json.null))) ∧
    (∀ ps, to_tsv (Json.obj (dictInsert ps (("tax_yen").toList) (Json.int 0))) =
      to_tsv (Json.obj (dictInsert ps (("tax_yen").toList) Json.null))) ∧
    (∀ ps, to_tsv (Json.obj (dictInsert ps (("store").toList) (Json.str []))) =
      to_tsv (Json.obj (dictInsert ps (("store").toList) Json.null))) ∧
    (∀ ps, to_tsv (Json.obj (dictInsert ps (("datetime").toList) (Json.str []))) =
      to_tsv (Json.obj (dictInsert ps (("datetime").toList) Json.null))) ∧
    (∀ ps, to_tsv (Json.obj (dictInsert ps (("payment").toList) (Json.str []))) =
      to_tsv (Json.obj (dictInsert ps (("payment").toList) Json.null))) := by
  refine ⟨?_, rfl, ?_, ?_, ?_, ?_, ?_⟩
  · intro v hv
    unfold orEmpty
    rw [hv]
    rfl
  · intro ps
    rw [to_tsv_obj, to_tsv_obj,
      tsvCols_insert_congr (("total_yen").toList) (Json.int 0) Json.null rfl]
  · intro ps
    rw [to_tsv_obj, to_tsv_obj,
      tsvCols_insert_congr (("tax_yen").toList) (Json.int 0) Json.null rfl]
  · intro ps
    rw [to_tsv_obj, to_tsv_obj,
      tsvCols_insert_congr (("store").toList) (Json.str []) Json.null rfl]
  · intro ps
    rw [to_tsv_obj, to_tsv_obj,
      tsvCols_insert_congr (("datetime").toList) (Json.str []) Json.null rfl]
  · intro ps
    rw [to_tsv_obj, to_tsv_obj,
      tsvCols_insert_congr (("payment").toList) (Json.str []) Json.null rfl]

/-- Witness for C9 at the zero total. -/
theorem C9_falsy_rendering_witness :
    orEmpty (Json.int 0) = Json.str [] :=
  C9_falsy_rendering.1 (Json.int 0) rfl

/-- C7: the orchestrator model makes at most one backend call on any path;
whenever the API key is present it makes exactly one call, with the prompt
built from the template and temperature 0; and a failing backend call is
terminal — the error propagates with no further calls (no retry). -/
theorem C7_backend_called_once :
    ∀ {α : Type} (apiKey : Option (List Char)) (backend : GenCall → Except PyErr α)
      (extractText : α → Except PyErr (List Char)) (text : List Char),
      (gemini_parse_receipt apiKey backend extractText text).2.length ≤ 1 ∧
      (∀ key, apiKey = some key → key ≠ [] →
        (gemini_parse_receipt apiKey backend extractText text).2 =
          [GenCall.mk (promptTemplate text) 0]) ∧
      (∀ key e, apiKey = some key → key ≠ [] →
        backend (GenCall.mk (promptTemplate text) 0) = Except.error e →
        gemini_parse_receipt apiKey backend extractText text =
          (Except.error e, [GenCall.mk (promptTemplate text) 0])) := by
  intro α apiKey backend extractText text
  refine ⟨?_, ?_, ?_⟩
  · unfold gemini_parse_receipt
    cases hr : _require_env (("GEMINI_API_KEY").toList) apiKey with
    | error e => simp
    | ok k =>
      cases hb : backend ⟨promptTemplate text, 0⟩ with
      | error e => simp [hb]
      | ok resp => cases he : extractText resp <;> simp [hb, he]
  · intro key hk hne
    subst hk
    have hkey : key.isEmpty = false := by
      cases key with
      | nil => exact absurd rfl hne
      | cons a t => rfl
    unfold gemini_parse_receipt _require_env
    simp only [hkey, Bool.false_eq_true, if_false]
    cases hb : backend ⟨promptTemplate text, 0⟩ with
    | error e => simp [hb]
    | ok resp => cases he : extractText resp <;> simp [hb, he]
  · intro key e hk hne hb
    subst hk
    have hkey : key.isEmpty = false := by
      cases key with
      | nil => exact absurd rfl hne
      | cons a t => rfl
    unfold gemini_parse_receipt _require_env
    simp only [hkey, Bool.false_eq_true, if_false, hb]

/-- Witness for C7: with a present key and a failing backend, exactly one
call is traced. -/
theorem C7_backend_called_once_witness :
    (gemini_parse_receipt (some (("k").toList))
      (fun _ => Except.error PyErr.valueError)
      (fun t : List Char => Except.ok t) (("ocr").toList)).2 =
      [GenCall.mk (promptTemplate (("ocr").toList)) 0] :=
  (C7_backend_called_once (some (("k").toList))
    (fun _ => Except.error PyErr.valueError)
    (fun t : List Char => Except.ok t) (("ocr").toList)).2.1
    (("k").toList) rfl (by decide)

theorem check_daily_limit_eq (limit : Int) (today d : List Char) (c : Int)
    (fs : FS) (h : _load_usage today fs = usageRecord d c) :
    check_daily_limit limit today fs =
      (if limit ≤ (if d = today then c else 0) then
        (Except.error (PyErr.runtimeError (quotaMsg limit)), fs)
       else
        (Except.ok (),
          _save_usage (usageRecord today ((if d = today then c else 0) + 1)) fs)) := by
  by_cases hd : d = today
  · subst hd
    simp [check_daily_limit, h, usageRecord, jget, jgetD, dictGet?, pyEqStr,
      pyToInt, dictInsert, _save_usage]
  · have hbeq : (d == today) = false := by
      cases hv : d == today
      · rfl
      · exact absurd (beq_iff_eq.mp hv) hd
    simp [check_daily_limit, h, usageRecord, jget, jgetD, dictGet?, pyEqStr,
      pyToInt, dictInsert, _save_usage, hbeq, hd]

/-- C8: assuming the usage file loads to a record with a day string and an
integer count, `check_daily_limit` resets the count to zero first whenever
the stored day differs from today; it raises the quota `RuntimeError` if
and only if the effective count has reached the limit, leaving the file
state untouched in that case; and otherwise it increments the count and
persists the record for today through the write-temporary-then-rename
`_save_usage`. -/
theorem C8_daily_limit :
    ∀ (limit : Int) (today d : List Char) (c : Int) (fs : FS),
      _load_usage today fs = usageRecord d c →
      ((limit ≤ (if d = today then c else 0) →
        check_daily_limit limit today fs =
          (Except.error (PyErr.runtimeError (quotaMsg limit)), fs)) ∧
      ((if d = today then c else 0) < limit →
        check_daily_limit limit today fs =
          (Except.ok (), renameTmp (writeTmp
            (pyDumps (usageRecord today ((if d = today then c else 0) + 1))) fs))) ∧
      ((if d = today then c else 0) < limit →
        (check_daily_limit limit today fs).2.main =
          FileState.content
            (pyDumps (usageRecord today ((if d = today then c else 0) + 1))) ∧
        (check_daily_limit limit today fs).2.tmp = Option.none)) := by
  intro limit today d c fs h
  have heq := check_daily_limit_eq limit today d c fs h
  refine ⟨?_, ?_, ?_⟩
  · intro hle
    rw [heq, if_pos hle]
  · intro hlt
    rw [heq, if_neg (by omega)]
    rfl
  · intro hlt
    rw [heq, if_neg (by omega)]
    exact ⟨rfl, rfl⟩

/-- Witness for C8: a well-formed counter file three requests into the day,
against the default limit of 50, is incremented and atomically rewritten. -/
theorem C8_daily_limit_witness :
    check_daily_limit 50 (("2025-10-12").toList)
      (FS.mk (FileState.content
        (("\x7b\"day\": \"2025-10-12\", \"count\": 3\x7d").toList)) Option.none) =
      (Except.ok (),
        FS.mk (FileState.content
          (("\x7b\"day\": \"2025-10-12\", \"count\": 4\x7d").toList)) Option.none) :=
  (C8_daily_limit 50 (("2025-10-12").toList) (("2025-10-12").toList) 3
    (FS.mk (FileState.content
      (("\x7b\"day\": \"2025-10-12\", \"count\": 3\x7d").toList)) Option.none)
    rfl).2.1 (by decide)

/-- C10 (implicit): `_load_usage` is total; on a missing file, an unreadable
file, or contents `json.loads` rejects, it returns the fresh
`day = today, count = 0` record — a corrupted counter file fails open —
and in every other case it returns exactly the parsed file contents. -/
theorem C10_load_usage :
    ∀ (today : List Char) (fs : FS),
      ((fs.main = FileState.absent ∨ fs.main = FileState.unreadable ∨
        (∃ s, fs.main = FileState.content s ∧ pyLoads s = Option.none)) →
        _load_usage today fs = defaultUsage today) ∧
      (_load_usage today fs = defaultUsage today ∨
        ∃ s v, fs.main = FileState.content s ∧ pyLoads s = some v ∧
          _load_usage today fs = v) := by
  intro today fs
  obtain ⟨m, tmp⟩ := fs
  constructor
  · intro h
    cases m with
    | absent => rfl
    | unreadable => rfl
    | content s =>
      rcases h with h | h | ⟨s2, hs2, hp⟩
      · simp at h
      · simp at h
      · simp only at hs2
        injection hs2 with hss
        subst hss
        unfold _load_usage
        simp only
        rw [hp]
        rfl
  · cases m with
    | absent => exact Or.inl rfl
    | unreadable => exact Or.inl rfl
    | content s =>
      cases hp : pyLoads s with
      | none =>
        refine Or.inl ?_
        unfold _load_usage
        simp only
        rw [hp]
        rfl
      | some v =>
        refine Or.inr ⟨s, v, rfl, hp, ?_⟩
        unfold _load_usage
        simp only
        rw [hp]
        rfl

/-- Witness for C10 at a concrete corrupted counter file. -/
theorem C10_load_usage_witness :
    _load_usage (("2025-10-12").toList)
      (FS.mk (FileState.content (("not json at all").toList)) Option.none) =
      defaultUsage (("2025-10-12").toList) :=
  (C10_load_usage (("2025-10-12").toList)
    (FS.mk (FileState.content (("not json at all").toList)) Option.none)).1
    (Or.inr (Or.inr ⟨("not json at all").toList, rfl, rfl⟩))

end ReceiptApi
